import Mathlib

/-!
Verification of the AEGIS fleet-coordination core (orchestrator, dispatch
engine, vehicle agent, anomaly detector, failure injector) against its
natural-language specification.  The Python sources are shallowly embedded:
pure functions become Lean functions, the mutable fleet dictionary becomes an
explicit list threaded through each operation (Python `dict` preserves
insertion order, so a list of entries is a faithful model), floats become
rationals, and code that can raise becomes `Except`-valued.
-/

set_option linter.unusedVariables false

namespace Aegis

/-- Operational status of a vehicle, from `src/models/enums.py`
(`OperationalStatus`). -/
inductive OperationalStatus
  | idle
  | en_route
  | on_scene
  | returning
  | maintenance
  | out_of_service
  | offline
deriving DecidableEq, Repr

/-- Vehicle type values appearing in the system.  `src/models/enums.py`
declares only `AMBULANCE` and `FIRE_TRUCK`; the member `POLICE` is referenced
by `dispatch_engine.py`, `orchestrator/agent.py`, `emergency.py`,
`scripts/start_fleet.py` and the unit tests.  This model type carries the
three values those references name so that snapshots and requirement lists
can be stated; the enum's actual two-member content is kept in
`vehicleTypeMembers`, and every code path that evaluates the missing
`VehicleType.POLICE` attribute (`typeRequirements`, `inferVehicleType`) is
modelled as raising `AttributeError`, exactly as the interpreter does. -/
inductive VehicleType
  | ambulance
  | fire_truck
  | police
deriving DecidableEq, Repr

/-- Alert severity, from `src/models/enums.py` (`AlertSeverity`). -/
inductive AlertSeverity
  | critical
  | warning
  | info
deriving DecidableEq, Repr

/-- Failure category, from `src/models/enums.py` (`FailureCategory`). -/
inductive FailureCategory
  | engine
  | transmission
  | electrical
  | brakes
  | cooling
  | fuel
  | tires
  | suspension
  | equipment
deriving DecidableEq, Repr

/-- Failure scenarios, from `src/models/enums.py` (`FailureScenario`). -/
inductive FailureScenario
  | engine_overheat
  | oil_pressure_drop
  | coolant_leak
  | alternator_failure
  | battery_degradation
  | voltage_spike
  | brake_pad_wear_critical
  | brake_fluid_leak
  | abs_malfunction
  | tire_pressure_low
  | tire_blowout
  | uneven_tire_wear
  | fuel_pump_failure
  | fuel_leak
  | injector_clog
  | transmission_overheat
  | gear_slippage
  | water_pump_failure
  | ladder_hydraulic_leak
  | defibrillator_battery_low
  | medical_oxygen_low
deriving DecidableEq, Repr

/-- Emergency lifecycle status, from `src/models/emergency.py`
(`EmergencyStatus`). -/
inductive EmergencyStatus
  | pending
  | dispatching
  | dispatched
  | in_progress
  | resolved
  | cancelled
deriving DecidableEq, Repr

/-- The `(attribute, value)` members of the `VehicleType` enum exactly as
declared in `src/models/enums.py` lines 10-14.  No `POLICE` member is
declared there. -/
def vehicleTypeMembers : List (String × String) :=
  [("AMBULANCE", "ambulance"), ("FIRE_TRUCK", "fire_truck")]

/-- Python attribute access `VehicleType.<attr>` on the enum of
`src/models/enums.py`: yields the member value, or raises `AttributeError`
when the member is not declared. -/
def vehicleTypeAttr (attr : String) : Except String String :=
  match vehicleTypeMembers.find? (fun p => p.1 = attr) with
  | some p => Except.ok p.2
  | none => Except.error ("AttributeError: " ++ attr)

/-- Python `str.upper()` for the ASCII identifiers this system uses, written
over the character list so it evaluates by kernel reduction. -/
def upperAscii (s : String) : String :=
  String.mk (s.data.map Char.toUpper)

/-- Python `s.startswith(p)` over the character lists. -/
def strStarts (s p : String) : Bool :=
  p.data.isPrefixOf s.data

/-- Embedding of `_infer_vehicle_type` from `src/orchestrator/agent.py` lines
372-389, with the Python enum member accesses made explicit through
`vehicleTypeAttr` so that the missing `POLICE` member surfaces as the
`AttributeError` the interpreter would raise. -/
def inferVehicleType (vehicle_id : String) : Except String String :=
  let vid := upperAscii vehicle_id
  if strStarts vid "AMB" then vehicleTypeAttr "AMBULANCE"
  else if strStarts vid "FIRE" then vehicleTypeAttr "FIRE_TRUCK"
  else if strStarts vid "POL" then vehicleTypeAttr "POLICE"
  else vehicleTypeAttr "AMBULANCE"

/-- GPS location from `src/models/vehicle.py` (`GeoLocation`); the dispatch
engine imports this shape under the name `Location`.  Only the coordinate
fields read by the modelled code are kept; coordinates are rationals. -/
structure GeoLocation where
  latitude : ℚ
  longitude : ℚ
deriving DecidableEq, Repr

/-- Live per-vehicle record from `src/models/dispatch.py`
(`VehicleStatusSnapshot`).  `last_seen_at` is an abstract clock value. -/
structure VehicleStatusSnapshot where
  vehicle_id : String
  vehicle_type : VehicleType
  operational_status : OperationalStatus := .offline
  location : Option GeoLocation := none
  current_emergency_id : Option String := none
  last_seen_at : Nat := 0
  battery_voltage : Option ℚ := none
  fuel_level_percent : Option ℚ := none
  has_active_alert : Bool := false
deriving DecidableEq, Repr

/-- Embedding of the derived property `VehicleStatusSnapshot.is_available`
(`src/models/dispatch.py` lines 151-160): the vehicle is IDLE and has no
active alert.  The source carries no condition on `location`. -/
def VehicleStatusSnapshot.is_available (s : VehicleStatusSnapshot) : Bool :=
  decide (s.operational_status = OperationalStatus.idle) && !s.has_active_alert

/-- Units required per vehicle type, from `src/models/emergency.py`
(`UnitsRequired`). -/
structure UnitsRequired where
  ambulances : Nat := 0
  fire_trucks : Nat := 0
  police : Nat := 0
deriving DecidableEq, Repr

/-- Emergency record from `src/models/emergency.py` (`Emergency`); timestamps
are abstract clock values, identifier strings are kept.  Fields not read by
the modelled operations (severity, address, description, notes) are
omitted. -/
structure Emergency where
  emergency_id : String
  emergency_type : String := "medical"
  status : EmergencyStatus := .pending
  location : GeoLocation
  units_required : UnitsRequired
  dispatched_at : Option Nat := none
  resolved_at : Option Nat := none
deriving DecidableEq, Repr

/-- A unit assigned to an emergency, from `src/models/dispatch.py`
(`DispatchedUnit`); the auto-generated timestamp is omitted. -/
structure DispatchedUnit where
  vehicle_id : String
  vehicle_type : VehicleType
  acknowledged : Bool := false
deriving DecidableEq, Repr

/-- Dispatch record from `src/models/dispatch.py` (`Dispatch`); the
auto-generated `dispatch_id` and timestamps are omitted. -/
structure Dispatch where
  emergency_id : String
  units : List DispatchedUnit := []
  selection_criteria : String := "nearest_available"
deriving DecidableEq, Repr

/-- Embedding of the `Dispatch.vehicle_ids` property. -/
def Dispatch.vehicle_ids (d : Dispatch) : List String :=
  d.units.map (·.vehicle_id)

/-- Insert an element into a key-sorted list after every element whose key is
strictly smaller, so that elements with equal keys keep their original
relative order. -/
def insertByKey {α : Type} (key : α → ℚ) (x : α) : List α → List α
  | [] => [x]
  | y :: ys => if key y < key x then y :: insertByKey key x ys else x :: y :: ys

/-- Stable sort by a rational-valued key.  Python `list.sort(key=...)`
guarantees stability; this insertion sort has the same specification
(ascending keys, ties kept in input order), proved below. -/
def stableSortBy {α : Type} (key : α → ℚ) : List α → List α
  | [] => []
  | x :: xs => insertByKey key x (stableSortBy key xs)

/-- Sort key used by `DispatchEngine._get_available_candidates`
(`src/orchestrator/dispatch_engine.py`): distance from the snapshot's
location to the emergency location.  `_haversine_km` computes a great-circle
distance with IEEE-754 trigonometry; the distance function is therefore kept
abstract as the parameter `dist` of every engine operation.  The snapshot's
location is always present when this key is evaluated (the candidate filter
guarantees it); the dummy origin mirrors the source's `type: ignore`. -/
def candidateKey (dist : GeoLocation → GeoLocation → ℚ) (location : GeoLocation)
    (s : VehicleStatusSnapshot) : ℚ :=
  dist (s.location.getD ⟨0, 0⟩) location

/-- Candidate filter of `DispatchEngine._get_available_candidates`
(`src/orchestrator/dispatch_engine.py` lines 150-154): matching type,
available, and with a known location. -/
def candidateFilter (vehicle_type : VehicleType) (s : VehicleStatusSnapshot) : Bool :=
  decide (s.vehicle_type = vehicle_type) && s.is_available && s.location.isSome

/-- Embedding of `DispatchEngine._get_available_candidates`
(`src/orchestrator/dispatch_engine.py` lines 136-160): filter the fleet, then
`list.sort` (stable) by distance from the emergency location. -/
def getAvailableCandidates (dist : GeoLocation → GeoLocation → ℚ)
    (fleet : List VehicleStatusSnapshot) (vehicle_type : VehicleType)
    (location : GeoLocation) : List VehicleStatusSnapshot :=
  stableSortBy (candidateKey dist location) (fleet.filter (candidateFilter vehicle_type))

/-- In-place update done by `select_units` on a single snapshot: chosen
snapshots are marked EN_ROUTE on the given emergency.  Python mutates the
chosen snapshot objects inside the fleet dict; with unique `vehicle_id` keys
this is the same as updating every snapshot whose id was chosen. -/
def markUpd (ids : List String) (emergency_id : String)
    (s : VehicleStatusSnapshot) : VehicleStatusSnapshot :=
  if s.vehicle_id ∈ ids then
    { s with operational_status := .en_route, current_emergency_id := some emergency_id }
  else s

/-- The fleet after `select_units` marks the chosen snapshots. -/
def markDispatched (ids : List String) (emergency_id : String)
    (fleet : List VehicleStatusSnapshot) : List VehicleStatusSnapshot :=
  fleet.map (markUpd ids emergency_id)

/-- Dispatched unit built from a chosen snapshot in `select_units`. -/
def snapUnit (s : VehicleStatusSnapshot) : DispatchedUnit :=
  { vehicle_id := s.vehicle_id, vehicle_type := s.vehicle_type }

/-- The per-type selection loop of `DispatchEngine.select_units`
(`src/orchestrator/dispatch_engine.py` lines 86-118): for each required
`(vehicle_type, count)` pair in order, skip zero counts, take the nearest
candidates, mark them EN_ROUTE in the shared fleet, and append their units. -/
def selectLoop (dist : GeoLocation → GeoLocation → ℚ) (emergency_id : String)
    (location : GeoLocation) :
    List (VehicleType × Nat) → List VehicleStatusSnapshot →
    List VehicleStatusSnapshot × List DispatchedUnit
  | [], fleet => (fleet, [])
  | (t, count) :: rest, fleet =>
    if count = 0 then selectLoop dist emergency_id location rest fleet
    else
      let chosen := (getAvailableCandidates dist fleet t location).take count
      let fleet' := markDispatched (chosen.map (·.vehicle_id)) emergency_id fleet
      let r := selectLoop dist emergency_id location rest fleet'
      (r.1, chosen.map snapUnit ++ r.2)

/-- The `type_requirements` list built at the top of
`DispatchEngine.select_units` (`src/orchestrator/dispatch_engine.py` lines
80-84): the required count per vehicle type, in the source's fixed order
ambulance, fire truck, police.  Building each tuple evaluates a `VehicleType`
member access; `enums.py` declares no `POLICE` member, so the third access
raises `AttributeError: POLICE` — on every call, whatever the counts are. -/
def typeRequirements (required : UnitsRequired) :
    Except String (List (VehicleType × Nat)) := do
  let _ ← vehicleTypeAttr "AMBULANCE"
  let _ ← vehicleTypeAttr "FIRE_TRUCK"
  let _ ← vehicleTypeAttr "POLICE"
  Except.ok [(.ambulance, required.ambulances),
             (.fire_truck, required.fire_trucks),
             (.police, required.police)]

/-- Embedding of `DispatchEngine.select_units`
(`src/orchestrator/dispatch_engine.py` lines 66-134): build the type
requirements (which raises `AttributeError: POLICE`, propagated as the error
value), then run the selection loop and return the mutated fleet alongside
the dispatch. -/
def select_units (dist : GeoLocation → GeoLocation → ℚ)
    (fleet : List VehicleStatusSnapshot) (e : Emergency) :
    Except String (List VehicleStatusSnapshot × Dispatch) := do
  let trs ← typeRequirements e.units_required
  let r := selectLoop dist e.emergency_id e.location trs fleet
  Except.ok (r.1, { emergency_id := e.emergency_id, units := r.2 })

/-- Embedding of `DispatchEngine.release_units`
(`src/orchestrator/dispatch_engine.py` lines 162-185): every snapshot whose
`current_emergency_id` matches goes back to IDLE with the id cleared, and its
`vehicle_id` is collected, in fleet order. -/
def release_units : List VehicleStatusSnapshot → String →
    List VehicleStatusSnapshot × List String
  | [], _ => ([], [])
  | s :: rest, emergency_id =>
    let r := release_units rest emergency_id
    if s.current_emergency_id = some emergency_id then
      ({ s with operational_status := .idle, current_emergency_id := none } :: r.1,
       s.vehicle_id :: r.2)
    else (s :: r.1, r.2)

/-- Per-snapshot form of the `release_units` update. -/
def releaseUpd (emergency_id : String) (s : VehicleStatusSnapshot) :
    VehicleStatusSnapshot :=
  if s.current_emergency_id = some emergency_id then
    { s with operational_status := .idle, current_emergency_id := none }
  else s

/-- Lookup in a Python dict modelled as an insertion-ordered entry list. -/
def dictGet {β : Type} (d : List (String × β)) (k : String) : Option β :=
  (d.find? (fun p => p.1 = k)).map (·.2)

/-- Assignment in a Python dict modelled as an insertion-ordered entry list:
an existing key keeps its position, a new key is appended. -/
def dictSet {β : Type} (d : List (String × β)) (k : String) (v : β) :
    List (String × β) :=
  if (d.find? (fun p => p.1 = k)).isSome then
    d.map (fun p => if p.1 = k then (k, v) else p)
  else d ++ [(k, v)]

/-- In-memory state owned by `OrchestratorAgent`
(`src/orchestrator/agent.py`): the fleet map shared with the dispatch engine
and the emergencies and dispatches maps. -/
structure OrchestratorState where
  fleet : List VehicleStatusSnapshot := []
  emergencies : List (String × Emergency) := []
  dispatches : List (String × Dispatch) := []
deriving DecidableEq, Repr

/-- Embedding of `OrchestratorAgent.process_emergency`
(`src/orchestrator/agent.py` lines 233-306): store the emergency, run the
dispatch engine, store the dispatch, then set the emergency status to
DISPATCHED with `dispatched_at = now` when at least one unit was assigned and
to DISPATCHING otherwise.  `select_units` raises (`AttributeError: POLICE`);
the exception propagates out of `process_emergency`, but only after
`self.emergencies[emergency_id] = emergency` has already run, so the error
case returns the state with the unmodified emergency stored and everything
else untouched.  The Redis publishes are fire-and-forget and do not touch
this state.  `now` stands for `datetime.utcnow()`. -/
def process_emergency (dist : GeoLocation → GeoLocation → ℚ)
    (st : OrchestratorState) (e : Emergency) (now : Nat) :
    OrchestratorState × Except String (Emergency × Dispatch) :=
  let st1 := { st with emergencies := dictSet st.emergencies e.emergency_id e }
  match select_units dist st.fleet e with
  | Except.error msg => (st1, Except.error msg)
  | Except.ok r =>
    let e' :=
      if r.2.units.isEmpty then { e with status := .dispatching }
      else { e with status := .dispatched, dispatched_at := some now }
    ({ fleet := r.1,
       emergencies := dictSet st1.emergencies e.emergency_id e',
       dispatches := dictSet st1.dispatches e.emergency_id r.2 },
     Except.ok (e', r.2))

/-- Embedding of `OrchestratorAgent.resolve_emergency`
(`src/orchestrator/agent.py` lines 308-341).  The initial
`self.emergencies[emergency_id]` lookup raises `KeyError` before anything is
mutated, modelled as returning the untouched state with an error; otherwise
the emergency is marked RESOLVED with `resolved_at = now` and the engine's
`release_units` returns the assigned vehicles to IDLE. -/
def resolve_emergency (st : OrchestratorState) (emergency_id : String)
    (now : Nat) : OrchestratorState × Except Unit (List String) :=
  match dictGet st.emergencies emergency_id with
  | none => (st, Except.error ())
  | some e =>
    let e' := { e with status := .resolved, resolved_at := some now }
    let r := release_units st.fleet emergency_id
    ({ fleet := r.1,
       emergencies := dictSet st.emergencies emergency_id e',
       dispatches := st.dispatches }, Except.ok r.2)

/-- Mutable operational state of a vehicle agent
(`src/vehicle_agent/agent.py`): `operational_status` and
`current_emergency_id`. -/
structure AgentState where
  operational_status : OperationalStatus
  current_emergency_id : Option String := none
deriving DecidableEq, Repr

/-- A decoded command payload as `VehicleAgent._handle_command` reads it:
each key may be absent.  `payload.get(k, d)` is modelled with `Option.getD`. -/
structure CommandPayload where
  command : Option String := none
  emergency_id : Option String := none
  emergency_type : Option String := none
  released_vehicles : Option (List String) := none
deriving DecidableEq, Repr

/-- Embedding of `VehicleAgent._handle_command`
(`src/vehicle_agent/agent.py` lines 322-378) for an already-parsed payload:
`dispatch` sets EN_ROUTE and records the emergency id; `resolve` returns the
agent to IDLE when its `vehicle_id` is among `released_vehicles`; any other
command value (including a missing `command` key, read as `""`) leaves the
state unchanged. -/
def handle_command (vehicle_id : String) (st : AgentState)
    (payload : CommandPayload) : AgentState :=
  let command := payload.command.getD ""
  if command = "dispatch" then
    { operational_status := .en_route, current_emergency_id := payload.emergency_id }
  else if command = "resolve" then
    if vehicle_id ∈ payload.released_vehicles.getD [] then
      { operational_status := .idle, current_emergency_id := none }
    else st
  else st

/-- The resolution broadcast payload published by
`OrchestratorAgent.resolve_emergency` (`src/orchestrator/agent.py` lines
326-333): exactly the keys `emergency_id` and `released_vehicles`, matching
the wire format of the spec.  No `command` key is sent. -/
def resolutionBroadcast (emergency_id : String) (released : List String) :
    CommandPayload :=
  { emergency_id := some emergency_id, released_vehicles := some released }

/-- Telemetry record from `src/models/telemetry.py` (`VehicleTelemetry`),
restricted to the fields read or written by the anomaly detector and the
failure injector; per-wheel dicts keep Python's insertion order as entry
lists.  Numeric sensor values are rationals. -/
structure VehicleTelemetry where
  vehicle_id : String
  sequence_number : Nat
  engine_temp_celsius : ℚ
  engine_rpm : Int
  coolant_temp_celsius : ℚ
  battery_voltage : ℚ
  alternator_voltage : ℚ
  battery_state_of_charge_percent : ℚ
  fuel_level_percent : ℚ
  brake_pad_thickness_mm : List (String × ℚ)
  brake_temp_celsius : List (String × ℚ)
  tire_pressure_psi : List (String × ℚ)
  vibration_g_force : List (String × ℚ)
deriving DecidableEq, Repr

/-- Modelled from the spec: `src/models/alerts.py` (class `PredictiveAlert`)
is not present under `src/`; only its callers are.  The fields follow the
spec's data model section and the keyword arguments passed by
`src/vehicle_agent/anomaly_detector.py`.  Identity and presentation fields
(`alert_id`, `vehicle_id`, `timestamp`, `recommended_action`,
`contributing_factors`, `related_telemetry`) are omitted: the detector fills
them with identifiers, clock values and formatted strings that do not bear on
any claim. -/
structure PredictiveAlert where
  severity : AlertSeverity
  category : FailureCategory
  component : String
  failure_probability : ℚ
  confidence : ℚ
  predicted_failure_min_hours : ℚ
  predicted_failure_max_hours : ℚ
  predicted_failure_likely_hours : ℚ
  can_complete_current_mission : Bool
  safe_to_operate : Bool
deriving DecidableEq, Repr

/-- Embedding of `AnomalyDetector._check_engine_temp`
(`src/vehicle_agent/anomaly_detector.py`): critical above 120 °C, warning
above 105 °C. -/
def checkEngineTemp (t : VehicleTelemetry) : List PredictiveAlert :=
  if t.engine_temp_celsius > 120 then
    [{ severity := .critical, category := .engine, component := "engine",
       failure_probability := 0.95, confidence := 0.98,
       predicted_failure_min_hours := 0.5, predicted_failure_max_hours := 2,
       predicted_failure_likely_hours := 1,
       can_complete_current_mission := false, safe_to_operate := false }]
  else if t.engine_temp_celsius > 105 then
    [{ severity := .warning, category := .engine, component := "engine",
       failure_probability := 0.65, confidence := 0.85,
       predicted_failure_min_hours := 2, predicted_failure_max_hours := 8,
       predicted_failure_likely_hours := 4,
       can_complete_current_mission := true, safe_to_operate := true }]
  else []

/-- Embedding of `AnomalyDetector._check_alternator`: critical below 13.0 V,
warning below 13.5 V; both leave `safe_to_operate` true. -/
def checkAlternator (t : VehicleTelemetry) : List PredictiveAlert :=
  if t.alternator_voltage < 13 then
    [{ severity := .critical, category := .electrical, component := "alternator",
       failure_probability := 0.85, confidence := 0.90,
       predicted_failure_min_hours := 1, predicted_failure_max_hours := 4,
       predicted_failure_likely_hours := 2,
       can_complete_current_mission := true, safe_to_operate := true }]
  else if t.alternator_voltage < 13.5 then
    [{ severity := .warning, category := .electrical, component := "alternator",
       failure_probability := 0.65, confidence := 0.85,
       predicted_failure_min_hours := 8, predicted_failure_max_hours := 24,
       predicted_failure_likely_hours := 12,
       can_complete_current_mission := true, safe_to_operate := true }]
  else []

/-- Embedding of `AnomalyDetector._check_battery`: the rule reads the battery
state of charge (not the battery voltage): critical below 20 %, warning below
40 %. -/
def checkBattery (t : VehicleTelemetry) : List PredictiveAlert :=
  if t.battery_state_of_charge_percent < 20 then
    [{ severity := .critical, category := .electrical, component := "battery",
       failure_probability := 0.90, confidence := 0.95,
       predicted_failure_min_hours := 0.5, predicted_failure_max_hours := 2,
       predicted_failure_likely_hours := 1,
       can_complete_current_mission := false, safe_to_operate := false }]
  else if t.battery_state_of_charge_percent < 40 then
    [{ severity := .warning, category := .electrical, component := "battery",
       failure_probability := 0.50, confidence := 0.80,
       predicted_failure_min_hours := 2, predicted_failure_max_hours := 6,
       predicted_failure_likely_hours := 4,
       can_complete_current_mission := true, safe_to_operate := true }]
  else []

/-- Alerts produced for a single brake pad entry in
`AnomalyDetector._check_brake_pads`: critical below 1.5 mm, warning below
3.0 mm. -/
def padAlerts (p : String × ℚ) : List PredictiveAlert :=
  if p.2 < 1.5 then
    [{ severity := .critical, category := .brakes,
       component := "brake_pad_" ++ p.1,
       failure_probability := 0.95, confidence := 0.98,
       predicted_failure_min_hours := 0, predicted_failure_max_hours := 1,
       predicted_failure_likely_hours := 0.5,
       can_complete_current_mission := false, safe_to_operate := false }]
  else if p.2 < 3 then
    [{ severity := .warning, category := .brakes,
       component := "brake_pad_" ++ p.1,
       failure_probability := 0.60, confidence := 0.90,
       predicted_failure_min_hours := 24, predicted_failure_max_hours := 72,
       predicted_failure_likely_hours := 48,
       can_complete_current_mission := true, safe_to_operate := true }]
  else []

/-- Embedding of `AnomalyDetector._check_brake_pads`: one check per entry of
the per-wheel dict, in iteration order. -/
def checkBrakePads (t : VehicleTelemetry) : List PredictiveAlert :=
  t.brake_pad_thickness_mm.flatMap padAlerts

/-- Alerts produced for a single tire entry in
`AnomalyDetector._check_tire_pressure`: critical below 40 psi, warning below
60 psi. -/
def tireAlerts (p : String × ℚ) : List PredictiveAlert :=
  if p.2 < 40 then
    [{ severity := .critical, category := .tires, component := "tire_" ++ p.1,
       failure_probability := 0.90, confidence := 0.95,
       predicted_failure_min_hours := 0, predicted_failure_max_hours := 0.5,
       predicted_failure_likely_hours := 0.25,
       can_complete_current_mission := false, safe_to_operate := false }]
  else if p.2 < 60 then
    [{ severity := .warning, category := .tires, component := "tire_" ++ p.1,
       failure_probability := 0.50, confidence := 0.85,
       predicted_failure_min_hours := 1, predicted_failure_max_hours := 4,
       predicted_failure_likely_hours := 2,
       can_complete_current_mission := true, safe_to_operate := true }]
  else []

/-- Embedding of `AnomalyDetector._check_tire_pressure`: one check per entry
of the per-wheel dict, in iteration order. -/
def checkTirePressure (t : VehicleTelemetry) : List PredictiveAlert :=
  t.tire_pressure_psi.flatMap tireAlerts

/-- Embedding of `AnomalyDetector.analyze`
(`src/vehicle_agent/anomaly_detector.py` lines 26-45): the five rule groups
run in order and their alerts are concatenated.  The detector has no rule
reading `battery_voltage` or `fuel_level_percent`. -/
def analyze (t : VehicleTelemetry) : List PredictiveAlert :=
  checkEngineTemp t ++ checkAlternator t ++ checkBattery t ++
    checkBrakePads t ++ checkTirePressure t

/-- Embedding of `FailureInjector._apply_engine_overheat`
(`src/vehicle_agent/failure_injector.py`): after `m` elapsed minutes the
engine temperature is `min (90 + 2 m) 150` and the coolant temperature
`min (85 + 2.5 m) 150`; nothing else changes. -/
def applyEngineOverheat (m : ℚ) (t : VehicleTelemetry) : VehicleTelemetry :=
  { t with
    engine_temp_celsius := min (90 + m * 2) 150,
    coolant_temp_celsius := min (85 + m * 2.5) 150 }

/-- Embedding of `FailureInjector._apply_alternator_failure`: alternator
voltage declines 0.1 V per 5 minutes floored at 11.5 V, the state of charge
drops 3 % per minute floored at 0, and the battery voltage tracks the state
of charge. -/
def applyAlternatorFailure (m : ℚ) (t : VehicleTelemetry) : VehicleTelemetry :=
  let soc := max 0 (100 - m * 3)
  { t with
    alternator_voltage := max 11.5 (14.2 - m / 5 * 0.1),
    battery_state_of_charge_percent := soc,
    battery_voltage := 11.5 + soc / 100 * 2.5 }

/-- Embedding of `FailureInjector._apply_brake_pad_wear`: pads wear 0.05 mm
per minute (front pads 30 % faster) and brake temperatures rise 0.5 °C per
minute from 40 °C, capped at 120 °C. -/
def applyBrakePadWear (m : ℚ) (t : VehicleTelemetry) : VehicleTelemetry :=
  let wear := m * 0.05
  let front := wear * 1.3
  let pads :=
    dictSet (dictSet (dictSet (dictSet t.brake_pad_thickness_mm
      "front_left" (max 0 (8 - front)))
      "front_right" (max 0 (8 - front)))
      "rear_left" (max 0 (9 - wear)))
      "rear_right" (max 0 (9 - wear))
  let base := 40 + m * 0.5
  let temps := ["front_left", "front_right", "rear_left", "rear_right"].foldl
    (fun d w => dictSet d w (min base 120)) t.brake_temp_celsius
  { t with brake_pad_thickness_mm := pads, brake_temp_celsius := temps }

/-- Embedding of `FailureInjector._apply_tire_leak`: the front-left tire
loses 2 psi per minute floored at 0, and z-axis vibration grows by
`min (0.02 m) 0.5`. -/
def applyTireLeak (m : ℚ) (t : VehicleTelemetry) : VehicleTelemetry :=
  { t with
    tire_pressure_psi := dictSet t.tire_pressure_psi "front_left" (max 0 (80 - m * 2)),
    vibration_g_force := dictSet t.vibration_g_force "z"
      (((t.vibration_g_force.find? (fun p => p.1 = "z")).map (·.2)).getD 0 +
        min (m * 0.02) 0.5) }

/-- Embedding of `FailureInjector.apply_failures`
(`src/vehicle_agent/failure_injector.py` lines 53-98): the active scenarios
(each paired with its elapsed minutes, i.e.
`get_time_since_activation / 60`) are walked in activation order; only the
four scenarios with an `if/elif` branch have any effect — every other member
of `FailureScenario`, including `fuel_leak`, falls through and leaves the
telemetry unchanged. -/
def apply_failures (active : List (FailureScenario × ℚ))
    (t : VehicleTelemetry) : VehicleTelemetry :=
  active.foldl (fun tel p =>
    match p.1 with
    | .engine_overheat => applyEngineOverheat p.2 tel
    | .alternator_failure => applyAlternatorFailure p.2 tel
    | .brake_pad_wear_critical => applyBrakePadWear p.2 tel
    | .tire_pressure_low => applyTireLeak p.2 tel
    | _ => tel) t

/-- Degenerate distance function used to instantiate the abstract `dist`
parameter on concrete inputs.  Where it is used, every candidate sits at the
emergency's exact coordinates, and `_haversine_km` returns exactly `0.0` for
identical coordinates (`sin 0 = 0`, `asin 0 = 0`, exact in IEEE-754 as
well), so the constant-zero function agrees with the source's key on those
inputs. -/
def zeroDist : GeoLocation → GeoLocation → ℚ := fun _ _ => 0

/-- Idle, alert-free ambulance snapshot at the given coordinates. -/
def idleAmbulance (vehicle_id : String) (loc : GeoLocation) :
    VehicleStatusSnapshot :=
  { vehicle_id := vehicle_id, vehicle_type := .ambulance,
    operational_status := .idle, location := some loc }

/-- Snapshot exercising claim C2: IDLE, no active alert, but with no known
location. -/
def snapC2 : VehicleStatusSnapshot :=
  { vehicle_id := "AMB-001", vehicle_type := .ambulance,
    operational_status := .idle, location := none }

/-- Fleet exercising claim C1's tie-break: two idle ambulances at identical
coordinates, inserted into the fleet dict in anti-lexicographic order. -/
def fleetC1 : List VehicleStatusSnapshot :=
  [idleAmbulance "AMB-002" ⟨0, 0⟩, idleAmbulance "AMB-001" ⟨0, 0⟩]

/-- Emergency at the same coordinates requiring one ambulance. -/
def emC1 : Emergency :=
  { emergency_id := "e-1", location := ⟨0, 0⟩,
    units_required := { ambulances := 1 } }

/-- One-ambulance fleet used to instantiate claim C1's amended theorem. -/
def fleetC1w : List VehicleStatusSnapshot :=
  [idleAmbulance "AMB-001" ⟨0, 0⟩]

/-- Telemetry of scenario S5: engine temperature 121 °C, battery voltage
11.4 V, fuel level 4 %, every other metric in its normal band. -/
def telemetryS5 : VehicleTelemetry :=
  { vehicle_id := "AMB-001", sequence_number := 1,
    engine_temp_celsius := 121, engine_rpm := 2500,
    coolant_temp_celsius := 95, battery_voltage := 11.4,
    alternator_voltage := 14.2, battery_state_of_charge_percent := 85,
    fuel_level_percent := 4,
    brake_pad_thickness_mm :=
      [("front_left", 10), ("front_right", 10), ("rear_left", 10), ("rear_right", 10)],
    brake_temp_celsius := [],
    tire_pressure_psi :=
      [("front_left", 80), ("front_right", 80), ("rear_left", 80), ("rear_right", 80)],
    vibration_g_force := [("x", 0), ("y", 0), ("z", 0)] }

/-- Nominal telemetry used against claim C9: fuel level 75 %, everything in
its normal band. -/
def telemetryC9 : VehicleTelemetry :=
  { vehicle_id := "AMB-001", sequence_number := 2,
    engine_temp_celsius := 90, engine_rpm := 2000,
    coolant_temp_celsius := 85, battery_voltage := 13.8,
    alternator_voltage := 14.2, battery_state_of_charge_percent := 90,
    fuel_level_percent := 75,
    brake_pad_thickness_mm :=
      [("front_left", 10), ("front_right", 10), ("rear_left", 10), ("rear_right", 10)],
    brake_temp_celsius := [],
    tire_pressure_psi :=
      [("front_left", 80), ("front_right", 80), ("rear_left", 80), ("rear_right", 80)],
    vibration_g_force := [("x", 0), ("y", 0), ("z", 0)] }

/-- Orchestrator state instantiating claim C5: one vehicle assigned to the
stored emergency `e-5`, one idle bystander. -/
def stC5w : OrchestratorState :=
  { fleet :=
      [{ vehicle_id := "AMB-001", vehicle_type := .ambulance,
         operational_status := .en_route, location := some ⟨0, 0⟩,
         current_emergency_id := some "e-5" },
       { vehicle_id := "FIRE-001", vehicle_type := .fire_truck,
         operational_status := .idle, location := some ⟨0, 0⟩ }],
    emergencies :=
      [("e-5", { emergency_id := "e-5", status := .dispatched, location := ⟨0, 0⟩,
                 units_required := { ambulances := 1 }, dispatched_at := some 1 })] }

/-- Emergency instantiating claim C6 against an empty fleet. -/
def emC6 : Emergency :=
  { emergency_id := "e-6", location := ⟨0, 0⟩,
    units_required := { ambulances := 1 } }

/-- Orchestrator state instantiating claim C7: a single idle ambulance. -/
def stC7 : OrchestratorState :=
  { fleet := [idleAmbulance "AMB-001" ⟨0, 0⟩] }

/-- First emergency of the claim C7 instantiation. -/
def emC7a : Emergency :=
  { emergency_id := "e-7a", location := ⟨0, 0⟩,
    units_required := { ambulances := 1 } }

/-- Second emergency of the claim C7 instantiation. -/
def emC7b : Emergency :=
  { emergency_id := "e-7b", location := ⟨0, 0⟩,
    units_required := { ambulances := 1 } }

/-- Fleet instantiating claim C10: one vehicle on emergency `e-10` in
MAINTENANCE status, one on another emergency, one unassigned. -/
def fleetC10 : List VehicleStatusSnapshot :=
  [{ vehicle_id := "AMB-001", vehicle_type := .ambulance,
     operational_status := .maintenance, current_emergency_id := some "e-10" },
   { vehicle_id := "FIRE-001", vehicle_type := .fire_truck,
     operational_status := .en_route, current_emergency_id := some "e-99" },
   { vehicle_id := "AMB-002", vehicle_type := .ambulance,
     operational_status := .idle }]

/-- Inserting an element with `insertByKey` is, up to permutation, consing
it. -/
theorem insertByKey_perm {α : Type} (key : α → ℚ) (x : α) (l : List α) :
    (insertByKey key x l).Perm (x :: l) := by
  induction l with
  | nil => exact List.Perm.refl _
  | cons y ys ih =>
    simp only [insertByKey]
    split
    · exact (ih.cons y).trans (List.Perm.swap x y ys)
    · exact List.Perm.refl _

/-- A stable sort permutes its input. -/
theorem stableSortBy_perm {α : Type} (key : α → ℚ) (l : List α) :
    (stableSortBy key l).Perm l := by
  induction l with
  | nil => exact List.Perm.refl _
  | cons x xs ih => exact (insertByKey_perm key x _).trans (ih.cons x)

/-- Membership is preserved by the stable sort. -/
theorem mem_stableSortBy {α : Type} {key : α → ℚ} {x : α} {l : List α} :
    x ∈ stableSortBy key l ↔ x ∈ l :=
  (stableSortBy_perm key l).mem_iff

/-- Inserting into a key-sorted list keeps it key-sorted. -/
theorem insertByKey_pairwise {α : Type} {key : α → ℚ} {x : α} {l : List α}
    (h : l.Pairwise (fun a b => key a ≤ key b)) :
    (insertByKey key x l).Pairwise (fun a b => key a ≤ key b) := by
  induction l with
  | nil => simp [insertByKey]
  | cons y ys ih =>
    rw [List.pairwise_cons] at h
    simp only [insertByKey]
    split
    · rename_i hlt
      rw [List.pairwise_cons]
      refine ⟨fun z hz => ?_, ih h.2⟩
      rcases List.mem_cons.mp ((insertByKey_perm key x ys).mem_iff.mp hz) with hz' | hz'
      · exact hz' ▸ le_of_lt hlt
      · exact h.1 z hz'
    · rename_i hnlt
      rw [List.pairwise_cons]
      refine ⟨fun z hz => ?_, List.pairwise_cons.mpr h⟩
      rcases List.mem_cons.mp hz with hz' | hz'
      · exact hz' ▸ not_lt.mp hnlt
      · exact le_trans (not_lt.mp hnlt) (h.1 z hz')

/-- The stable sort is sorted by its key. -/
theorem stableSortBy_pairwise {α : Type} (key : α → ℚ) (l : List α) :
    (stableSortBy key l).Pairwise (fun a b => key a ≤ key b) := by
  induction l with
  | nil => simp [stableSortBy]
  | cons x xs ih => exact insertByKey_pairwise ih

/-- Restricting to one key value, insertion puts the new element first. -/
theorem insertByKey_filter_of_eq {α : Type} {key : α → ℚ} {x : α} {q : ℚ}
    (hq : key x = q) (l : List α) :
    (insertByKey key x l).filter (fun s => decide (key s = q)) =
      x :: l.filter (fun s => decide (key s = q)) := by
  induction l with
  | nil => simp [insertByKey, List.filter, hq]
  | cons y ys ih =>
    simp only [insertByKey]
    split
    · rename_i hlt
      have hy : ¬ key y = q := by
        rw [← hq]; exact ne_of_lt hlt
      simp only [List.filter_cons, decide_eq_true_eq, if_neg hy, ih]
    · simp [List.filter_cons, hq]

/-- Restricting to a key value the new element does not have, insertion is
invisible. -/
theorem insertByKey_filter_of_ne {α : Type} {key : α → ℚ} {x : α} {q : ℚ}
    (hq : ¬ key x = q) (l : List α) :
    (insertByKey key x l).filter (fun s => decide (key s = q)) =
      l.filter (fun s => decide (key s = q)) := by
  induction l with
  | nil => simp [insertByKey, List.filter, hq]
  | cons y ys ih =>
    simp only [insertByKey]
    split
    · simp only [List.filter_cons, ih]
    · simp only [List.filter_cons, decide_eq_true_eq, if_neg hq]

/-- Stability of `stableSortBy`: within each key value, the sorted list keeps
exactly the input's elements in the input's order.  This is the guarantee
Python's `list.sort` documents (stable sort), and it pins down the tie-break
of the candidate ordering: ties are broken by position in the input, not by
any other attribute. -/
theorem stableSortBy_filter_key {α : Type} (key : α → ℚ) (l : List α) (q : ℚ) :
    (stableSortBy key l).filter (fun s => decide (key s = q)) =
      l.filter (fun s => decide (key s = q)) := by
  induction l with
  | nil => rfl
  | cons x xs ih =>
    simp only [stableSortBy]
    by_cases hx : key x = q
    · rw [insertByKey_filter_of_eq hx, ih, List.filter_cons, if_pos (by simpa using hx)]
    · rw [insertByKey_filter_of_ne hx, ih, List.filter_cons, if_neg (by simpa using hx)]

/-- Marking never changes a snapshot's identifier. -/
theorem markUpd_vehicle_id (ids : List String) (eid : String)
    (s : VehicleStatusSnapshot) : (markUpd ids eid s).vehicle_id = s.vehicle_id := by
  unfold markUpd; split <;> rfl

/-- Marking never changes a snapshot's vehicle type. -/
theorem markUpd_vehicle_type (ids : List String) (eid : String)
    (s : VehicleStatusSnapshot) : (markUpd ids eid s).vehicle_type = s.vehicle_type := by
  unfold markUpd; split <;> rfl

/-- Marking with an empty id list does nothing. -/
theorem markDispatched_nil (eid : String) (f : List VehicleStatusSnapshot) :
    markDispatched [] eid f = f := by
  have hupd : ∀ s, markUpd [] eid s = s := fun s => by
    unfold markUpd
    rw [if_neg (List.not_mem_nil _)]
  calc f.map (markUpd [] eid) = f.map id := List.map_congr_left fun s _ => hupd s
    _ = f := List.map_id f

/-- Two consecutive markings on the same emergency merge into one. -/
theorem markUpd_markUpd (ids1 ids2 : List String) (eid : String)
    (s : VehicleStatusSnapshot) :
    markUpd ids2 eid (markUpd ids1 eid s) = markUpd (ids1 ++ ids2) eid s := by
  by_cases h1 : s.vehicle_id ∈ ids1
  · by_cases h2 : s.vehicle_id ∈ ids2
    · unfold markUpd
      rw [if_pos h1, if_pos h2, if_pos (List.mem_append.mpr (Or.inl h1))]
    · unfold markUpd
      rw [if_pos h1, if_neg h2, if_pos (List.mem_append.mpr (Or.inl h1))]
  · by_cases h2 : s.vehicle_id ∈ ids2
    · unfold markUpd
      rw [if_neg h1, if_pos h2, if_pos (List.mem_append.mpr (Or.inr h2))]
    · unfold markUpd
      rw [if_neg h1, if_neg h2, if_neg (by simp [List.mem_append, h1, h2])]

/-- Fleet-level version of `markUpd_markUpd`. -/
theorem markDispatched_markDispatched (ids1 ids2 : List String) (eid : String)
    (f : List VehicleStatusSnapshot) :
    markDispatched ids2 eid (markDispatched ids1 eid f) =
      markDispatched (ids1 ++ ids2) eid f := by
  simp only [markDispatched, List.map_map]
  exact List.map_congr_left fun s _ => markUpd_markUpd ids1 ids2 eid s

/-- Unfolding of `candidateFilter` into its three conjuncts. -/
theorem candidateFilter_eq_true {t : VehicleType} {s : VehicleStatusSnapshot} :
    candidateFilter t s = true ↔
      (s.vehicle_type = t ∧ s.is_available = true ∧ s.location.isSome = true) := by
  simp [candidateFilter, Bool.and_eq_true, decide_eq_true_eq, and_assoc]

/-- Marking snapshots whose ids belong only to other vehicle types does not
change the candidate filter's verdict. -/
theorem candidateFilter_markUpd (t : VehicleType) (ids : List String)
    (eid : String) (s : VehicleStatusSnapshot)
    (h : s.vehicle_id ∈ ids → s.vehicle_type ≠ t) :
    candidateFilter t (markUpd ids eid s) = candidateFilter t s := by
  by_cases hm : s.vehicle_id ∈ ids
  · have ht : ¬ (s.vehicle_type = t) := h hm
    unfold markUpd
    rw [if_pos hm]
    simp [candidateFilter, ht]
  · unfold markUpd
    rw [if_neg hm]

/-- Marking snapshots of other vehicle types leaves the filtered candidate
pool of type `t` untouched. -/
theorem filter_markDispatched (t : VehicleType) (ids : List String)
    (eid : String) (f : List VehicleStatusSnapshot)
    (h : ∀ s ∈ f, s.vehicle_id ∈ ids → s.vehicle_type ≠ t) :
    (markDispatched ids eid f).filter (candidateFilter t) =
      f.filter (candidateFilter t) := by
  induction f with
  | nil => rfl
  | cons s fs ih =>
    have hs := h s (List.mem_cons_self s fs)
    have ih' := ih fun x hx => h x (List.mem_cons_of_mem s hx)
    simp only [markDispatched, List.map_cons, List.filter_cons] at *
    rw [candidateFilter_markUpd t ids eid s hs]
    by_cases hk : candidateFilter t s = true
    · have htype : s.vehicle_type = t := (candidateFilter_eq_true.mp hk).1
      have hnm : s.vehicle_id ∉ ids := fun hm => (hs hm) htype
      have hupd : markUpd ids eid s = s := by
        unfold markUpd
        rw [if_neg hnm]
      rw [if_pos hk, if_pos hk, hupd, ih']
    · rw [if_neg hk, if_neg hk, ih']

/-- Candidate pools of a vehicle type are unchanged by marking snapshots of
other types. -/
theorem getAvailableCandidates_mark (dist : GeoLocation → GeoLocation → ℚ)
    (t : VehicleType) (loc : GeoLocation) (ids : List String) (eid : String)
    (f : List VehicleStatusSnapshot)
    (h : ∀ s ∈ f, s.vehicle_id ∈ ids → s.vehicle_type ≠ t) :
    getAvailableCandidates dist (markDispatched ids eid f) t loc =
      getAvailableCandidates dist f t loc := by
  unfold getAvailableCandidates
  rw [filter_markDispatched t ids eid f h]

/-- A chosen candidate comes from the fleet, has the requested type, and was
available. -/
theorem take_candidates_mem {dist : GeoLocation → GeoLocation → ℚ}
    {f : List VehicleStatusSnapshot} {t : VehicleType} {loc : GeoLocation}
    {n : Nat} {c : VehicleStatusSnapshot}
    (hc : c ∈ (getAvailableCandidates dist f t loc).take n) :
    c ∈ f ∧ c.vehicle_type = t ∧ c.is_available = true := by
  have hmem := mem_stableSortBy.mp (List.mem_of_mem_take hc)
  have hmem' := List.mem_filter.mp hmem
  exact ⟨hmem'.1, (candidateFilter_eq_true.mp hmem'.2).1,
    (candidateFilter_eq_true.mp hmem'.2).2.1⟩

/-- The selection loop on a cons cell, written without the zero-count branch:
a zero count takes no candidates and marks nothing, so the uniform form holds
for every count. -/
theorem selectLoop_cons (dist : GeoLocation → GeoLocation → ℚ) (eid : String)
    (loc : GeoLocation) (t : VehicleType) (count : Nat)
    (rest : List (VehicleType × Nat)) (f : List VehicleStatusSnapshot) :
    selectLoop dist eid loc ((t, count) :: rest) f =
      ((selectLoop dist eid loc rest
          (markDispatched (((getAvailableCandidates dist f t loc).take count).map
            (·.vehicle_id)) eid f)).1,
       ((getAvailableCandidates dist f t loc).take count).map snapUnit ++
         (selectLoop dist eid loc rest
          (markDispatched (((getAvailableCandidates dist f t loc).take count).map
            (·.vehicle_id)) eid f)).2) := by
  by_cases hc : count = 0
  · subst hc
    simp [selectLoop, markDispatched_nil]
  · simp [selectLoop, hc]

/-- A snapshot EN_ROUTE is not available (`is_available` demands IDLE). -/
theorem en_route_not_available {s : VehicleStatusSnapshot}
    (h : s.operational_status = .en_route) : s.is_available = false := by
  simp [VehicleStatusSnapshot.is_available, h]

/-- Marking cannot turn an unavailable snapshot available: it only moves
snapshots to EN_ROUTE. -/
theorem markUpd_is_available_false {ids : List String} {eid : String}
    {s : VehicleStatusSnapshot} (h : s.is_available = false) :
    (markUpd ids eid s).is_available = false := by
  unfold markUpd
  split
  · simp [VehicleStatusSnapshot.is_available]
  · exact h

/-- A marked snapshot is EN_ROUTE. -/
theorem markUpd_status_of_mem {ids : List String} {eid : String}
    {s : VehicleStatusSnapshot} (hm : s.vehicle_id ∈ ids) :
    (markUpd ids eid s).operational_status = .en_route := by
  unfold markUpd
  rw [if_pos hm]

/-- Marking preserves the EN_ROUTE status. -/
theorem markUpd_en_route_preserved {ids : List String} {eid : String}
    {s : VehicleStatusSnapshot} (h : s.operational_status = .en_route) :
    (markUpd ids eid s).operational_status = .en_route := by
  unfold markUpd
  split
  · rfl
  · exact h

/-- If every snapshot carrying an id is unavailable when the selection loop
starts, that id is never selected, and every snapshot carrying it is still
unavailable when the loop ends. -/
theorem selectLoop_not_selected (dist : GeoLocation → GeoLocation → ℚ)
    (eid : String) (loc : GeoLocation) (v : String) :
    ∀ (trs : List (VehicleType × Nat)) (f : List VehicleStatusSnapshot),
      (∀ s ∈ f, s.vehicle_id = v → s.is_available = false) →
      v ∉ (selectLoop dist eid loc trs f).2.map (·.vehicle_id) ∧
        ∀ s ∈ (selectLoop dist eid loc trs f).1, s.vehicle_id = v →
          s.is_available = false := by
  intro trs
  induction trs with
  | nil =>
    intro f h
    exact ⟨by simp [selectLoop], h⟩
  | cons tc rest ih =>
    intro f h
    obtain ⟨t, n⟩ := tc
    rw [selectLoop_cons]
    have hch : ∀ c ∈ (getAvailableCandidates dist f t loc).take n,
        ¬ c.vehicle_id = v := by
      intro c hc hv
      have hmem := take_candidates_mem hc
      have havail := hmem.2.2
      rw [h c hmem.1 hv] at havail
      exact Bool.false_ne_true havail
    have hmark : ∀ s ∈ markDispatched
        (((getAvailableCandidates dist f t loc).take n).map (·.vehicle_id)) eid f,
        s.vehicle_id = v → s.is_available = false := by
      intro s hs hv
      obtain ⟨s0, hs0, rfl⟩ := List.mem_map.mp hs
      exact markUpd_is_available_false
        (h s0 hs0 (by rw [← markUpd_vehicle_id _ eid s0]; exact hv))
    have hrec := ih _ hmark
    refine ⟨?_, hrec.2⟩
    simp only [List.map_append, List.mem_append, List.map_map]
    rintro (hmem | hmem)
    · obtain ⟨c, hc, hcv⟩ := List.mem_map.mp hmem
      exact hch c hc hcv
    · exact hrec.1 hmem

/-- Once every snapshot carrying an id is EN_ROUTE, the rest of the selection
loop keeps it EN_ROUTE. -/
theorem selectLoop_en_route_preserved (dist : GeoLocation → GeoLocation → ℚ)
    (eid : String) (loc : GeoLocation) (v : String) :
    ∀ (trs : List (VehicleType × Nat)) (f : List VehicleStatusSnapshot),
      (∀ s ∈ f, s.vehicle_id = v → s.operational_status = .en_route) →
      ∀ s ∈ (selectLoop dist eid loc trs f).1, s.vehicle_id = v →
        s.operational_status = .en_route := by
  intro trs
  induction trs with
  | nil =>
    intro f h
    exact h
  | cons tc rest ih =>
    intro f h
    obtain ⟨t, n⟩ := tc
    rw [selectLoop_cons]
    refine ih _ ?_
    intro s hs hv
    obtain ⟨s0, hs0, rfl⟩ := List.mem_map.mp hs
    exact markUpd_en_route_preserved
      (h s0 hs0 (by rw [← markUpd_vehicle_id _ eid s0]; exact hv))

/-- Every vehicle selected by the loop ends the loop EN_ROUTE: the loop marks
it when it is chosen, and no later step unmarks it. -/
theorem selectLoop_selected_en_route (dist : GeoLocation → GeoLocation → ℚ)
    (eid : String) (loc : GeoLocation) (v : String) :
    ∀ (trs : List (VehicleType × Nat)) (f : List VehicleStatusSnapshot),
      v ∈ (selectLoop dist eid loc trs f).2.map (·.vehicle_id) →
      ∀ s ∈ (selectLoop dist eid loc trs f).1, s.vehicle_id = v →
        s.operational_status = .en_route := by
  intro trs
  induction trs with
  | nil =>
    intro f hmem
    simp [selectLoop] at hmem
  | cons tc rest ih =>
    intro f hmem
    obtain ⟨t, n⟩ := tc
    rw [selectLoop_cons] at hmem ⊢
    simp only [List.map_append, List.mem_append, List.map_map] at hmem
    rcases hmem with hmem | hmem
    · obtain ⟨c, hc, hcv⟩ := List.mem_map.mp hmem
      refine selectLoop_en_route_preserved dist eid loc v rest _ ?_
      intro s hs hv
      obtain ⟨s0, hs0, rfl⟩ := List.mem_map.mp hs
      refine markUpd_status_of_mem ?_
      rw [markUpd_vehicle_id _ eid s0] at hv
      rw [hv, ← hcv]
      exact List.mem_map.mpr ⟨c, hc, rfl⟩
    · exact ih _ hmem

/-- Closed form of the `release_units` recursion: the returned fleet applies
`releaseUpd` to every snapshot and the returned ids are exactly the ids of
the snapshots that were assigned to the emergency, in fleet order. -/
theorem release_units_eq (f : List VehicleStatusSnapshot) (eid : String) :
    release_units f eid =
      (f.map (releaseUpd eid),
       (f.filter (fun s => decide (s.current_emergency_id = some eid))).map
         (·.vehicle_id)) := by
  induction f with
  | nil => rfl
  | cons s fs ih =>
    simp only [release_units, ih, List.map_cons, List.filter_cons]
    by_cases h : s.current_emergency_id = some eid
    · simp [h, releaseUpd]
    · simp [h, releaseUpd]

/-- After a release, no snapshot still points at the released emergency. -/
theorem releaseUpd_cid (eid : String) (s : VehicleStatusSnapshot) :
    (releaseUpd eid s).current_emergency_id ≠ some eid := by
  unfold releaseUpd
  split
  · simp
  · rename_i h
    exact h

/-- Releasing a snapshot that no longer points at the emergency does
nothing. -/
theorem releaseUpd_noop {eid : String} {s : VehicleStatusSnapshot}
    (h : s.current_emergency_id ≠ some eid) : releaseUpd eid s = s := by
  unfold releaseUpd
  rw [if_neg h]

/-- The per-snapshot release is idempotent. -/
theorem releaseUpd_releaseUpd (eid : String) (s : VehicleStatusSnapshot) :
    releaseUpd eid (releaseUpd eid s) = releaseUpd eid s :=
  releaseUpd_noop (releaseUpd_cid eid s)

/-- An immediately repeated `release_units` returns the empty list of ids and
leaves every snapshot as it was. -/
theorem release_units_idem (f : List VehicleStatusSnapshot) (eid : String) :
    release_units (release_units f eid).1 eid = ((release_units f eid).1, []) := by
  rw [release_units_eq f eid]
  rw [release_units_eq]
  refine Prod.ext ?_ ?_
  · simp only [List.map_map]
    exact List.map_congr_left fun s _ => releaseUpd_releaseUpd eid s
  · have hnil : (f.map (releaseUpd eid)).filter
        (fun s => decide (s.current_emergency_id = some eid)) = [] := by
      rw [List.filter_eq_nil_iff]
      intro s hs
      obtain ⟨s0, hs0, rfl⟩ := List.mem_map.mp hs
      simp [releaseUpd_cid eid s0]
    simp [hnil]

/-- Setting a key makes it readable: Python `d[k] = v` then `d[k]`. -/
theorem dictGet_dictSet {β : Type} (d : List (String × β)) (k : String)
    (v : β) : dictGet (dictSet d k v) k = some v := by
  unfold dictGet dictSet
  by_cases h : (d.find? (fun p => decide (p.1 = k))).isSome
  · rw [if_pos h]
    induction d with
    | nil => simp at h
    | cons p ps ih =>
      by_cases hp : p.1 = k
      · simp [List.find?_cons, hp]
      · rw [List.find?_cons_of_neg _ (by simpa using hp)] at h
        simp only [List.map_cons, if_neg (by simpa using hp)]
        rw [List.find?_cons_of_neg _ (by simpa using hp)]
        exact ih h
  · rw [if_neg h]
    rw [List.find?_append]
    have hnone : d.find? (fun p => decide (p.1 = k)) = none :=
      Option.not_isSome_iff_eq_none.mp h
    simp [hnone]

/-- A per-entry check producing no alerts anywhere makes the whole per-wheel
scan empty. -/
theorem flatMap_eq_nil_of_forall {l : List (String × ℚ)}
    {g : String × ℚ → List PredictiveAlert}
    (h : ∀ p ∈ l, g p = []) : l.flatMap g = [] := by
  induction l with
  | nil => rfl
  | cons p ps ih =>
    simp only [List.flatMap_cons, h p (List.mem_cons_self p ps),
      List.nil_append]
    exact ih fun x hx => h x (List.mem_cons_of_mem p hx)

/-- A brake pad at or above 3 mm raises no alert. -/
theorem padAlerts_eq_nil {p : String × ℚ} (h : 3 ≤ p.2) : padAlerts p = [] := by
  unfold padAlerts
  rw [if_neg (not_lt.mpr (le_trans (by norm_num) h)), if_neg (not_lt.mpr h)]

/-- A tire at or above 60 psi raises no alert. -/
theorem tireAlerts_eq_nil {p : String × ℚ} (h : 60 ≤ p.2) : tireAlerts p = [] := by
  unfold tireAlerts
  rw [if_neg (not_lt.mpr (le_trans (by norm_num) h)), if_neg (not_lt.mpr h)]

/-- Claim C2, counterexample: the claimed equivalence
`is_available ↔ idle ∧ no alert ∧ location ≠ null` fails on the snapshot
`snapC2`, which is IDLE with no alert and no location: the source's
`is_available` is true there although the claimed right-hand side is
false. -/
theorem C2_counterexample :
    ¬ (snapC2.is_available = true ↔
      (snapC2.operational_status = OperationalStatus.idle ∧
       snapC2.has_active_alert = false ∧ snapC2.location ≠ none)) := by
  decide

/-- Claim C2, amended: for every snapshot `s`, `s.is_available` holds if and
only if `s.operational_status = idle` and `s.has_active_alert` is false; the
non-null-location requirement is not part of `is_available` (the dispatch
engine enforces it separately in its candidate filter). -/
theorem C2_is_available_iff (s : VehicleStatusSnapshot) :
    s.is_available = true ↔
      (s.operational_status = OperationalStatus.idle ∧
        s.has_active_alert = false) := by
  simp [VehicleStatusSnapshot.is_available, Bool.and_eq_true,
    decide_eq_true_eq, Bool.not_eq_true']

/-- Claim C2, witness: the amended equivalence evaluated on `snapC2`. -/
theorem C2_is_available_iff_witness :
    snapC2.is_available = true ∧
      (snapC2.operational_status = OperationalStatus.idle ∧
        snapC2.has_active_alert = false) :=
  ⟨rfl, (C2_is_available_iff snapC2).mp rfl⟩

/-- Claim C8: the prefix dispatch of `_infer_vehicle_type` matches the claim
for `AMB`, `FIRE` and unknown prefixes (case-insensitively), but an id with
prefix `POL` makes the function raise
`AttributeError: POLICE` because `src/models/enums.py` declares no `POLICE`
member — the code contradicts its own test
`test_pol_prefix_returns_police`. -/
theorem C8_infer_vehicle_type :
    inferVehicleType "AMB-001" = Except.ok "ambulance" ∧
    inferVehicleType "amb-007" = Except.ok "ambulance" ∧
    inferVehicleType "FIRE-002" = Except.ok "fire_truck" ∧
    inferVehicleType "fire-009" = Except.ok "fire_truck" ∧
    inferVehicleType "POL-003" = Except.error "AttributeError: POLICE" ∧
    inferVehicleType "pol-003" = Except.error "AttributeError: POLICE" ∧
    inferVehicleType "XYZ-001" = Except.ok "ambulance" :=
  ⟨rfl, rfl, rfl, rfl, rfl, rfl, rfl⟩

/-- Claim C4: the resolution broadcast published by `resolve_emergency`
carries only `emergency_id` and `released_vehicles`, but
`VehicleAgent._handle_command` reacts to `resolve` only when the payload has
`command = "resolve"`; the actual broadcast therefore falls through to the
unknown-command branch and the agent's state does not change, even though its
`vehicle_id` is in `released_vehicles`.  Adding the missing `command` key is
exactly what makes the handler return the agent to IDLE. -/
theorem C4_resolution_broadcast_ignored :
    handle_command "AMB-001"
        { operational_status := .en_route, current_emergency_id := some "e-1" }
        (resolutionBroadcast "e-1" ["AMB-001"]) =
      { operational_status := .en_route, current_emergency_id := some "e-1" } ∧
    ({ operational_status := OperationalStatus.en_route,
       current_emergency_id := some "e-1" } : AgentState) ≠
      { operational_status := .idle, current_emergency_id := none } ∧
    handle_command "AMB-001"
        { operational_status := .en_route, current_emergency_id := some "e-1" }
        { resolutionBroadcast "e-1" ["AMB-001"] with command := some "resolve" } =
      { operational_status := .idle, current_emergency_id := none } := by
  refine ⟨rfl, by decide, rfl⟩

/-- Claim C10: `release_units` sends every snapshot assigned to the emergency
back to IDLE and clears its assignment no matter what its operational status
was (the update tests only `current_emergency_id`), returns exactly the ids
of the previously assigned snapshots in fleet order, and is idempotent: an
immediately repeated call returns no ids and changes no snapshot. -/
theorem C10_release_units (f : List VehicleStatusSnapshot) (eid : String) :
    (release_units f eid).1 = f.map (releaseUpd eid) ∧
    (release_units f eid).2 =
      (f.filter (fun s => decide (s.current_emergency_id = some eid))).map
        (·.vehicle_id) ∧
    (∀ s ∈ (release_units f eid).1, s.current_emergency_id ≠ some eid) ∧
    release_units (release_units f eid).1 eid = ((release_units f eid).1, []) := by
  refine ⟨?_, ?_, ?_, release_units_idem f eid⟩
  · rw [release_units_eq]
  · rw [release_units_eq]
  · rw [release_units_eq]
    intro s hs
    obtain ⟨s0, _, rfl⟩ := List.mem_map.mp hs
    exact releaseUpd_cid eid s0

/-- Claim C10, witness: `release_units` on `fleetC10` releases the
MAINTENANCE vehicle assigned to `e-10`, leaves the others alone, and a second
call returns nothing. -/
theorem C10_release_units_witness :
    (release_units fleetC10 "e-10").2 = ["AMB-001"] ∧
    release_units (release_units fleetC10 "e-10").1 "e-10" =
      ((release_units fleetC10 "e-10").1, []) := by
  refine ⟨?_, (C10_release_units fleetC10 "e-10").2.2.2⟩
  rfl

/-- Claim C3, counterexample: on telemetry with `engine_temp = 121`,
`battery_voltage = 11.4` and `fuel_level_percent = 4` (all other metrics in
their normal bands), the anomaly analysis returns exactly one alert, a
critical engine alert — not three: the detector has no rule reading
`battery_voltage` (its battery rule reads the state of charge) and no fuel
rule at all. -/
theorem C3_counterexample :
    telemetryS5.engine_temp_celsius = 121 ∧
    telemetryS5.battery_voltage = 11.4 ∧
    telemetryS5.fuel_level_percent = 4 ∧
    (analyze telemetryS5).map (·.component) = ["engine"] ∧
    ¬ ((analyze telemetryS5).filter
        (fun a => decide (a.severity = AlertSeverity.critical))).length = 3 := by
  refine ⟨rfl, rfl, rfl, ?_, ?_⟩ <;>
    norm_num [analyze, telemetryS5, checkEngineTemp, checkAlternator,
      checkBattery, checkBrakePads, checkTirePressure, padAlerts, tireAlerts]

/-- Claim C3, amended: whenever the engine temperature is above the 120 °C
critical threshold and every metric the detector actually checks (alternator
voltage, battery state of charge, per-wheel brake pads and tire pressures) is
in its normal band, `analyze` returns exactly one alert: the critical engine
alert with `safe_to_operate = false`.  `battery_voltage` and
`fuel_level_percent` play no role in the detector. -/
theorem C3_single_engine_alert (t : VehicleTelemetry)
    (h1 : t.engine_temp_celsius > 120)
    (h2 : 13.5 ≤ t.alternator_voltage)
    (h3 : 40 ≤ t.battery_state_of_charge_percent)
    (h4 : ∀ p ∈ t.brake_pad_thickness_mm, 3 ≤ p.2)
    (h5 : ∀ p ∈ t.tire_pressure_psi, 60 ≤ p.2) :
    analyze t =
      [{ severity := .critical, category := .engine, component := "engine",
         failure_probability := 0.95, confidence := 0.98,
         predicted_failure_min_hours := 0.5, predicted_failure_max_hours := 2,
         predicted_failure_likely_hours := 1,
         can_complete_current_mission := false, safe_to_operate := false }] := by
  have ha1 : ¬ t.alternator_voltage < 13 :=
    not_lt.mpr (le_trans (by norm_num) h2)
  have ha2 : ¬ t.alternator_voltage < 13.5 := not_lt.mpr h2
  have hb1 : ¬ t.battery_state_of_charge_percent < 20 :=
    not_lt.mpr (le_trans (by norm_num) h3)
  have hb2 : ¬ t.battery_state_of_charge_percent < 40 := not_lt.mpr h3
  unfold analyze checkEngineTemp checkAlternator checkBattery checkBrakePads
    checkTirePressure
  rw [if_pos h1, if_neg ha1, if_neg ha2, if_neg hb1, if_neg hb2,
    flatMap_eq_nil_of_forall (fun p hp => padAlerts_eq_nil (h4 p hp)),
    flatMap_eq_nil_of_forall (fun p hp => tireAlerts_eq_nil (h5 p hp))]
  simp

/-- Claim C3, witness: the amended theorem applied to the S5 telemetry. -/
theorem C3_single_engine_alert_witness :
    telemetryS5.engine_temp_celsius > 120 ∧
    (analyze telemetryS5).length = 1 := by
  have h1 : telemetryS5.engine_temp_celsius > 120 := by norm_num [telemetryS5]
  have h2 : (13.5 : ℚ) ≤ telemetryS5.alternator_voltage := by
    norm_num [telemetryS5]
  have h3 : (40 : ℚ) ≤ telemetryS5.battery_state_of_charge_percent := by
    norm_num [telemetryS5]
  have h4 : ∀ p ∈ telemetryS5.brake_pad_thickness_mm, (3 : ℚ) ≤ p.2 := by
    intro p hp
    simp only [telemetryS5, List.mem_cons, List.not_mem_nil, or_false] at hp
    rcases hp with h | h | h | h <;> subst h <;> norm_num
  have h5 : ∀ p ∈ telemetryS5.tire_pressure_psi, (60 : ℚ) ≤ p.2 := by
    intro p hp
    simp only [telemetryS5, List.mem_cons, List.not_mem_nil, or_false] at hp
    rcases hp with h | h | h | h <;> subst h <;> norm_num
  refine ⟨h1, ?_⟩
  rw [C3_single_engine_alert telemetryS5 h1 h2 h3 h4 h5]
  rfl

/-- Claim C9, counterexample: activating `fuel_leak` for 10 minutes leaves
the telemetry completely unchanged — `apply_failures` has no branch for
`fuel_leak` — whereas the claimed rule `fuel = max(0, 75 − 5m)` would have
dropped the fuel level from 75 % to 25 %. -/
theorem C9_counterexample :
    apply_failures [(FailureScenario.fuel_leak, 10)] telemetryC9 = telemetryC9 ∧
    telemetryC9.fuel_level_percent = 75 ∧
    ¬ (75 : ℚ) = max 0 (75 - 5 * 10) := by
  refine ⟨rfl, rfl, ?_⟩
  rw [max_def]
  norm_num

/-- Claim C9, amended: for every telemetry record and elapsed time `m`, the
`engine_overheat` scenario overrides exactly the engine and coolant
temperatures with `min (90 + 2 m) 150` and `min (85 + 2.5 m) 150` (giving
120 °C at `m = 15` and 100 °C at `m = 5`, as the spec's S6 scenario expects),
leaving every other telemetry field unchanged — while `fuel_leak` is not an
implemented scenario: applying it changes nothing. -/
theorem C9_failure_injector (t : VehicleTelemetry) (m : ℚ) :
    apply_failures [(FailureScenario.engine_overheat, m)] t =
      { t with engine_temp_celsius := min (90 + m * 2) 150,
               coolant_temp_celsius := min (85 + m * 2.5) 150 } ∧
    (apply_failures [(FailureScenario.engine_overheat, m)] t).fuel_level_percent =
      t.fuel_level_percent ∧
    apply_failures [(FailureScenario.fuel_leak, m)] t = t ∧
    min (90 + (15 : ℚ) * 2) 150 = 120 ∧
    min (90 + (5 : ℚ) * 2) 150 = 100 := by
  refine ⟨rfl, rfl, rfl, ?_, ?_⟩ <;> rw [min_def] <;> norm_num

/-- Claim C9, witness: the amended theorem applied to the nominal telemetry
at `m = 15`. -/
theorem C9_failure_injector_witness :
    apply_failures [(FailureScenario.fuel_leak, 15)] telemetryC9 = telemetryC9 ∧
    (apply_failures [(FailureScenario.engine_overheat, 15)] telemetryC9).engine_temp_celsius =
      min (90 + 15 * 2) 150 := by
  have h := C9_failure_injector telemetryC9 15
  exact ⟨h.2.2.1, by rw [h.1]⟩

/-- Claim C5: `resolve_emergency` on an unknown id fails (Python `KeyError`,
the spec's `NotFound`) before mutating anything; on a stored id it returns
exactly the ids of the snapshots that were assigned to the emergency (the
empty list when none were), moves each of them to IDLE with the assignment
cleared, and stores the emergency as RESOLVED with `resolved_at` set. -/
theorem C5_resolve_emergency (st : OrchestratorState) (eid : String)
    (now : Nat) :
    (dictGet st.emergencies eid = none →
      resolve_emergency st eid now = (st, Except.error ())) ∧
    (∀ em, dictGet st.emergencies eid = some em →
      (resolve_emergency st eid now).2 =
        Except.ok ((st.fleet.filter
          (fun s => decide (s.current_emergency_id = some eid))).map
            (·.vehicle_id)) ∧
      (resolve_emergency st eid now).1.fleet = st.fleet.map (releaseUpd eid) ∧
      (∀ s ∈ (resolve_emergency st eid now).1.fleet,
        s.current_emergency_id ≠ some eid) ∧
      dictGet (resolve_emergency st eid now).1.emergencies eid =
        some { em with status := .resolved, resolved_at := some now }) := by
  constructor
  · intro h
    unfold resolve_emergency
    rw [h]
  · intro em h
    unfold resolve_emergency
    rw [h]
    refine ⟨?_, ?_, ?_, ?_⟩
    · simp [release_units_eq]
    · simp [release_units_eq]
    · intro s hs
      simp only [release_units_eq] at hs
      obtain ⟨s0, _, rfl⟩ := List.mem_map.mp hs
      exact releaseUpd_cid eid s0
    · exact dictGet_dictSet st.emergencies eid _

/-- Claim C5, witness: resolving the stored emergency `e-5` of `stC5w`
releases exactly `AMB-001` (the `FIRE-001` bystander is untouched), and the
stored emergency comes out RESOLVED with `resolved_at = 7`. -/
theorem C5_resolve_emergency_witness :
    dictGet stC5w.emergencies "e-5" =
      some { emergency_id := "e-5", status := .dispatched, location := ⟨0, 0⟩,
             units_required := { ambulances := 1 }, dispatched_at := some 1 } ∧
    (resolve_emergency stC5w "e-5" 7).2 = Except.ok ["AMB-001"] ∧
    dictGet (resolve_emergency stC5w "e-5" 7).1.emergencies "e-5" =
      some { emergency_id := "e-5", status := .resolved, location := ⟨0, 0⟩,
             units_required := { ambulances := 1 }, dispatched_at := some 1,
             resolved_at := some 7 } := by
  have h := (C5_resolve_emergency stC5w "e-5" 7).2
    { emergency_id := "e-5", status := .dispatched, location := ⟨0, 0⟩,
      units_required := { ambulances := 1 }, dispatched_at := some 1 } rfl
  exact ⟨rfl, by rw [h.1]; rfl, by rw [h.2.2.2]⟩

/-- Building the type requirements evaluates `VehicleType.POLICE`, which
`enums.py` does not declare; every call raises `AttributeError: POLICE`. -/
theorem typeRequirements_raises (required : UnitsRequired) :
    typeRequirements required = Except.error "AttributeError: POLICE" := rfl

/-- Consequently `select_units` raises on every fleet and emergency, before
looking at a single snapshot. -/
theorem select_units_raises (dist : GeoLocation → GeoLocation → ℚ)
    (fleet : List VehicleStatusSnapshot) (e : Emergency) :
    select_units dist fleet e = Except.error "AttributeError: POLICE" := rfl

/-- Claim C6: the claimed post-return behavior is unreachable.  On the
concrete failing input (and in fact on every input), `process_emergency`
propagates `AttributeError: POLICE` out of `select_units`
(`dispatch_engine.py` line 83) before the status logic of `agent.py` lines
250-264 runs: no dispatch is returned, the fleet is untouched, and the
emergency stays stored with its pre-call state — never DISPATCHED or
DISPATCHING.  The repo's own tests `test_emergency_status_becomes_dispatched`
and `test_emergency_status_is_dispatching_when_no_units` assert exactly the
claim's behavior, so the claim is right and the code is wrong. -/
theorem C6_process_emergency_raises (dist : GeoLocation → GeoLocation → ℚ)
    (st : OrchestratorState) (e : Emergency) (now : Nat) :
    (process_emergency zeroDist {} emC6 3).2 =
      Except.error "AttributeError: POLICE" ∧
    dictGet (process_emergency zeroDist {} emC6 3).1.emergencies "e-6" =
      some emC6 ∧
    emC6.status = EmergencyStatus.pending ∧
    (process_emergency dist st e now).2 =
      Except.error "AttributeError: POLICE" ∧
    (process_emergency dist st e now).1.fleet = st.fleet ∧
    dictGet (process_emergency dist st e now).1.emergencies e.emergency_id =
      some e := by
  refine ⟨rfl, ?_, rfl, rfl, rfl, ?_⟩
  · have hst : (process_emergency zeroDist {} emC6 3).1.emergencies =
        dictSet ({} : OrchestratorState).emergencies "e-6" emC6 := rfl
    rw [hst]
    exact dictGet_dictSet _ _ _
  · have hst : (process_emergency dist st e now).1.emergencies =
        dictSet st.emergencies e.emergency_id e := rfl
    rw [hst]
    exact dictGet_dictSet _ _ _

/-- Claim C7: on the failing input (a one-ambulance fleet and two serialized
emergencies) both `process_emergency` calls propagate
`AttributeError: POLICE` out of `select_units` before selecting anything, so
the two claimed dispatches are never produced (first two conjuncts evaluate
the code there).  The selection loop those calls were meant to run does
enforce exclusive reservation, for arbitrary requirement lists: every
selected snapshot is marked EN_ROUTE, and a later run over the resulting
fleet only selects snapshots that are still IDLE, so it can never pick the
same vehicle id again (third conjunct). -/
theorem C7_exclusive_reservation (dist : GeoLocation → GeoLocation → ℚ)
    (eid1 eid2 : String) (loc1 loc2 : GeoLocation)
    (trs1 trs2 : List (VehicleType × Nat)) (f : List VehicleStatusSnapshot)
    (v : String)
    (h1 : v ∈ (selectLoop dist eid1 loc1 trs1 f).2.map (·.vehicle_id)) :
    (process_emergency zeroDist stC7 emC7a 1).2 =
      Except.error "AttributeError: POLICE" ∧
    (process_emergency zeroDist
      (process_emergency zeroDist stC7 emC7a 1).1 emC7b 2).2 =
      Except.error "AttributeError: POLICE" ∧
    v ∉ (selectLoop dist eid2 loc2 trs2
      (selectLoop dist eid1 loc1 trs1 f).1).2.map (·.vehicle_id) := by
  refine ⟨rfl, rfl, ?_⟩
  have hen := selectLoop_selected_en_route dist eid1 loc1 v trs1 f h1
  have hun : ∀ s ∈ (selectLoop dist eid1 loc1 trs1 f).1,
      s.vehicle_id = v → s.is_available = false :=
    fun s hs hv => en_route_not_available (hen s hs hv)
  exact (selectLoop_not_selected dist eid2 loc2 v trs2 _ hun).1

/-- Claim C7, witness: with the single idle ambulance of `stC7`, a first
loop run over a one-ambulance requirement selects `AMB-001`, and a second run
over the resulting fleet cannot select it again. -/
theorem C7_exclusive_reservation_witness :
    "AMB-001" ∈ (selectLoop zeroDist "e-7a" ⟨0, 0⟩ [(.ambulance, 1)]
      stC7.fleet).2.map (·.vehicle_id) ∧
    "AMB-001" ∉ (selectLoop zeroDist "e-7b" ⟨0, 0⟩ [(.ambulance, 1)]
      (selectLoop zeroDist "e-7a" ⟨0, 0⟩ [(.ambulance, 1)]
        stC7.fleet).1).2.map (·.vehicle_id) := by
  have h1 : "AMB-001" ∈ (selectLoop zeroDist "e-7a" ⟨0, 0⟩ [(.ambulance, 1)]
      stC7.fleet).2.map (·.vehicle_id) := by decide
  exact ⟨h1, (C7_exclusive_reservation zeroDist "e-7a" "e-7b" ⟨0, 0⟩ ⟨0, 0⟩
    [(.ambulance, 1)] [(.ambulance, 1)] stC7.fleet "AMB-001" h1).2.2⟩

/-- Claim C1, counterexample: on `fleetC1` (two idle ambulances at the
emergency's exact coordinates, inserted as `AMB-002`, `AMB-001`) and `emC1`
(one ambulance required), the claim says `select_units` assigns `AMB-001`
(nearest, ties broken lexicographically).  Instead the real `select_units`
raises `AttributeError: POLICE` while building its `type_requirements` list
(first conjunct), and the selection loop body it would then run picks
`AMB-002`: both Haversine keys are exactly 0 here (identical coordinates, as
with the instantiated distance function), and the stable sort keeps fleet
insertion order, not vehicle-id order (remaining conjuncts). -/
theorem C1_counterexample :
    select_units zeroDist fleetC1 emC1 =
      Except.error "AttributeError: POLICE" ∧
    (selectLoop zeroDist "e-1" ⟨0, 0⟩ [(.ambulance, 1)] fleetC1).2.map
      (·.vehicle_id) = ["AMB-002"] ∧
    ¬ (selectLoop zeroDist "e-1" ⟨0, 0⟩ [(.ambulance, 1)] fleetC1).2.map
      (·.vehicle_id) = ["AMB-001"] ∧
    ("AMB-001" : String) < "AMB-002" := by
  refine ⟨rfl, rfl, by decide, ?_⟩
  rw [String.lt_iff_toList_lt]
  decide

/-- Claim C1, amended: for every fleet and emergency, `select_units` fails
with `AttributeError: POLICE` before considering any snapshot, because
building its `type_requirements` list evaluates the `VehicleType.POLICE`
member that `enums.py` does not declare (first conjunct).  The selection loop
body it would then run satisfies, for every distance function and fleet with
distinct vehicle ids: for each vehicle type in the order ambulance, fire
truck, police it selects the first `required count` elements of that type's
candidate list taken from the pre-call fleet (so at most
`min(N_T, available_count)` units of type `T`); and each candidate list
contains exactly the snapshots of that type that are available with a known
location, sorted ascending by distance from the emergency location, with
ties broken by fleet (insertion) order — not by vehicle id. -/
theorem C1_select_units_characterization (dist : GeoLocation → GeoLocation → ℚ)
    (fleet : List VehicleStatusSnapshot) (e : Emergency)
    (hids : (fleet.map (·.vehicle_id)).Nodup) :
    select_units dist fleet e = Except.error "AttributeError: POLICE" ∧
    ((selectLoop dist e.emergency_id e.location
      [(.ambulance, e.units_required.ambulances),
       (.fire_truck, e.units_required.fire_trucks),
       (.police, e.units_required.police)] fleet).2 =
      ((getAvailableCandidates dist fleet .ambulance e.location).take
        e.units_required.ambulances).map snapUnit ++
      ((getAvailableCandidates dist fleet .fire_truck e.location).take
        e.units_required.fire_trucks).map snapUnit ++
      ((getAvailableCandidates dist fleet .police e.location).take
        e.units_required.police).map snapUnit) ∧
    ∀ vt : VehicleType,
      (getAvailableCandidates dist fleet vt e.location).Perm
        (fleet.filter (candidateFilter vt)) ∧
      (getAvailableCandidates dist fleet vt e.location).Pairwise
        (fun a b => candidateKey dist e.location a ≤ candidateKey dist e.location b) ∧
      ∀ q : ℚ,
        (getAvailableCandidates dist fleet vt e.location).filter
          (fun s => decide (candidateKey dist e.location s = q)) =
        (fleet.filter (candidateFilter vt)).filter
          (fun s => decide (candidateKey dist e.location s = q)) := by
  have hinj := List.inj_on_of_nodup_map hids
  have hA : ∀ s ∈ fleet,
      s.vehicle_id ∈ ((getAvailableCandidates dist fleet .ambulance
        e.location).take e.units_required.ambulances).map (·.vehicle_id) →
      s.vehicle_type = VehicleType.ambulance := by
    intro s hs hm
    obtain ⟨c, hc, hcv⟩ := List.mem_map.mp hm
    have hcmem := take_candidates_mem hc
    have heq : s = c := hinj hs hcmem.1 hcv.symm
    rw [heq]
    exact hcmem.2.1
  have hF : ∀ s ∈ fleet,
      s.vehicle_id ∈ ((getAvailableCandidates dist fleet .fire_truck
        e.location).take e.units_required.fire_trucks).map (·.vehicle_id) →
      s.vehicle_type = VehicleType.fire_truck := by
    intro s hs hm
    obtain ⟨c, hc, hcv⟩ := List.mem_map.mp hm
    have hcmem := take_candidates_mem hc
    have heq : s = c := hinj hs hcmem.1 hcv.symm
    rw [heq]
    exact hcmem.2.1
  have prem2 : ∀ s ∈ fleet,
      s.vehicle_id ∈ ((getAvailableCandidates dist fleet .ambulance
        e.location).take e.units_required.ambulances).map (·.vehicle_id) →
      s.vehicle_type ≠ VehicleType.fire_truck := by
    intro s hs hm hcon
    have ht := hA s hs hm
    rw [ht] at hcon
    exact VehicleType.noConfusion hcon
  have prem3 : ∀ s ∈ fleet,
      s.vehicle_id ∈ ((getAvailableCandidates dist fleet .ambulance
          e.location).take e.units_required.ambulances).map (·.vehicle_id) ++
        ((getAvailableCandidates dist fleet .fire_truck
          e.location).take e.units_required.fire_trucks).map (·.vehicle_id) →
      s.vehicle_type ≠ VehicleType.police := by
    intro s hs hm hcon
    rcases List.mem_append.mp hm with hm' | hm'
    · have ht := hA s hs hm'
      rw [ht] at hcon
      exact VehicleType.noConfusion hcon
    · have ht := hF s hs hm'
      rw [ht] at hcon
      exact VehicleType.noConfusion hcon
  refine ⟨select_units_raises dist fleet e, ?_, ?_⟩
  · rw [selectLoop_cons]
    simp only
    rw [selectLoop_cons]
    simp only
    rw [getAvailableCandidates_mark dist .fire_truck e.location _
      e.emergency_id fleet prem2]
    rw [markDispatched_markDispatched]
    rw [selectLoop_cons]
    simp only
    rw [getAvailableCandidates_mark dist .police e.location _
      e.emergency_id fleet prem3]
    simp [selectLoop, List.append_assoc]
  · intro vt
    exact ⟨stableSortBy_perm _ _, stableSortBy_pairwise _ _,
      fun q => stableSortBy_filter_key _ _ q⟩

/-- Claim C1, witness: the amended theorem applied to the one-ambulance fleet
`fleetC1w` and the emergency `emC1` requiring one ambulance. -/
theorem C1_select_units_characterization_witness :
    (fleetC1w.map (·.vehicle_id)).Nodup ∧
    select_units zeroDist fleetC1w emC1 =
      Except.error "AttributeError: POLICE" ∧
    (selectLoop zeroDist emC1.emergency_id emC1.location
      [(.ambulance, emC1.units_required.ambulances),
       (.fire_truck, emC1.units_required.fire_trucks),
       (.police, emC1.units_required.police)] fleetC1w).2 =
      [{ vehicle_id := "AMB-001", vehicle_type := .ambulance }] := by
  have hn : (fleetC1w.map (·.vehicle_id)).Nodup := by decide
  have h := C1_select_units_characterization zeroDist fleetC1w emC1 hn
  refine ⟨hn, h.1, ?_⟩
  rw [h.2.1]
  rfl

end Aegis
